import Mathlib

/-!
Verification of the saucebox audio-processing core against its specification.

The development shallowly embeds the Python core (feature extractor,
decision engine, processing engine, quality predictor) into Lean.
Conventions used throughout:

* Audio samples are rationals (exact arithmetic in place of IEEE floats).
* Calls into external numeric libraries whose exact values are
  transcendental (scipy Butterworth filtering, numpy FFT magnitudes,
  tanh, 10 ^ x, 1 - exp (-1 / n), Pearson correlation) are modelled as
  oracle parameters; every branch and arithmetic step written in the
  repository itself is embedded directly.
* A numpy NaN is modelled as Option.none where it can arise.
* Where the source stores sqrt (mean (x ^ 2)) we store the mean square
  itself; sqrt is injective on nonnegative reals, so every equality or
  comparison the claims make about such fields is unaffected.
* Python exceptions are modelled with Except String.
-/

/-- A mono or multi-channel numpy buffer: mono arrays have shape (n,),
multi-channel arrays have shape (channels, samplesPerChannel). -/
inductive PyAudio where
  | mono (samples : List ℚ)
  | multi (channels : List (List ℚ))
deriving DecidableEq

/-- Python len of a numpy array: the size of the first axis. -/
def pyLen : PyAudio → Nat
  | .mono xs => xs.length
  | .multi chs => chs.length

/-- All samples of the buffer in order; numpy reductions such as np.max,
np.min and np.mean range over every element of the array. -/
def samplesOf : PyAudio → List ℚ
  | .mono xs => xs
  | .multi chs => chs.flatten

/-- np.max of a nonempty list (the empty case never feeds a claim). -/
def listMax : List ℚ → ℚ
  | [] => 0
  | x :: xs => xs.foldl max x

/-- np.min of a nonempty list. -/
def listMin : List ℚ → ℚ
  | [] => 0
  | x :: xs => xs.foldl min x

/-- Mean of the squared samples.  The source computes
sqrt (np.mean (audio ** 2)); we keep the square (see the header note). -/
def meanSq (xs : List ℚ) : ℚ :=
  ((xs.map fun x => x ^ 2).sum) / (xs.length : ℚ)

/-- Largest absolute sample, np.max (np.abs audio), with 0 for empty input. -/
def maxAbs (xs : List ℚ) : ℚ :=
  xs.foldr (fun x m => max |x| m) 0

/-- Python int (...) conversion: truncation toward zero.  Lean integer
division already truncates toward zero. -/
def pyInt (q : ℚ) : ℤ := q.num / (q.den : ℤ)

/-- np.clip x lo hi = min (max x lo) hi. -/
def pyClip (x lo hi : ℚ) : ℚ := min (max x lo) hi

/-- Dictionary lookup with default, dict.get (key, dflt), for numeric dicts. -/
def lookupQ (d : List (String × ℚ)) (key : String) (dflt : ℚ) : ℚ :=
  match d.find? (fun p => p.1 == key) with
  | some p => p.2
  | none => dflt

/-- Sum of the values of a numeric dict, sum (d.values ()). -/
def sumVals (d : List (String × ℚ)) : ℚ := (d.map Prod.snd).sum

/-- A Python dict value as it appears in processing-step parameter
mappings: a float, a string, or a nested dict. -/
inductive PVal where
  | num (val : ℚ)
  | str (s : String)
  | dict (d : List (String × PVal))

/-- A parameter mapping (Python dict preserving insertion order). -/
abbrev PDict := List (String × PVal)

/-- First binding of a key in a parameter mapping. -/
def pdictFind : PDict → String → Option PVal
  | [], _ => none
  | (k, v) :: rest, key => if k = key then some v else pdictFind rest key

/-- d.get (key, dflt) expecting a numeric value. -/
def pdictGetNum (d : PDict) (key : String) (dflt : ℚ) : ℚ :=
  match pdictFind d key with
  | some (.num q) => q
  | _ => dflt

/-- d.get (key, dflt) expecting a string value. -/
def pdictGetStr (d : PDict) (key : String) (dflt : String) : String :=
  match pdictFind d key with
  | some (.str s) => s
  | _ => dflt

/-- Reading a nested parameter dict; a non-dict value would make the
source call .get on it and raise AttributeError. -/
def asDict : PVal → Except String PDict
  | .dict d => .ok d
  | _ => .error "AttributeError: object has no attribute get"

/-! ## Feature extractor (sauce_maximizer/core/analyzer.py, MixAnalyzer) -/

/-- Outcomes of the external numeric computations the extractor performs,
supplied as an oracle.  Except.error stands for a raised exception. -/
structure AnalysisEnv where
  /-- HAS_LIBROSA module flag. -/
  hasLibrosa : Bool
  /-- Models an unexpected exception escaping the body of
  extract_features (caught by its outermost handler). -/
  outerException : Bool
  /-- librosa spectral_centroid / spectral_rolloff means. -/
  librosaSpectral : Except String (ℚ × ℚ)
  /-- librosa stft path: per-bin (center frequency, mean magnitude over
  frames); magnitudes are absolute values, hence nonnegative. -/
  librosaSpectrum : Except String (List (ℚ × ℚ))
  /-- np.fft path on the first min (len, 8192) samples: per-bin
  (fftfreq frequency, magnitude). -/
  fftPairs : Except String (List (ℚ × ℚ))
  /-- np.corrcoef (left, right) [0, 1]; none models a NaN result
  (for example when a channel is constant). -/
  corr : Option ℚ

/-- The extracted feature record.  rms_energy_sq stores the square of
the rms the source stores (see the header note). -/
structure AudioFeatures where
  spectral_centroid : ℚ
  spectral_rolloff : ℚ
  rms_energy_sq : ℚ
  dynamic_range : ℚ
  frequency_balance : List (String × ℚ)
  /-- none models a NaN stereo width. -/
  stereo_width : Option ℚ
  peak_frequency : ℚ
deriving DecidableEq

/-- self.frequency_bands: name, low edge, high edge (Hz). -/
def freqBands : List (String × ℚ × ℚ) :=
  [("bass", 20, 250), ("low_mids", 250, 500), ("mids", 500, 2000),
   ("high_mids", 2000, 4000), ("highs", 4000, 20000)]

/-- Fallback balance returned when a frequency-analysis exception is
caught inside the balance helpers. -/
def fallbackBalance5 : List (String × ℚ) :=
  [("bass", 3/10), ("low_mids", 1/5), ("mids", 3/10),
   ("high_mids", 3/20), ("highs", 1/20)]

/-- The documented safe-default record returned when feature extraction
fails as a whole (analyzer.py lines 144-152); rms_energy_sq is the
square of the 0.1 the source stores. -/
def safeDefaultFeatures : AudioFeatures :=
  { spectral_centroid := 1000
    spectral_rolloff := 8000
    rms_energy_sq := 1/100
    dynamic_range := 1/2
    frequency_balance := [("bass", 3/10), ("mids", 2/5), ("highs", 3/10)]
    stereo_width := some (1/2)
    peak_frequency := 440 }

/-- Mean magnitude of the bins inside a band, 0.0 when the band mask is
empty (np.any (band_mask) false). -/
def bandEnergy (spec : List (ℚ × ℚ)) (lo hi : ℚ) : ℚ :=
  let xs := spec.filter fun p => decide (lo ≤ p.1 ∧ p.1 ≤ hi)
  if xs.isEmpty then 0 else (xs.map Prod.snd).sum / (xs.length : ℚ)

/-- Per-band energies over the five bands. -/
def bandEnergies (spec : List (ℚ × ℚ)) : List (String × ℚ) :=
  freqBands.map fun b => (b.1, bandEnergy spec b.2.1 b.2.2)

/-- Normalize band energies to ratios when the total is positive,
leave them untouched otherwise. -/
def normalizeBalance (fb : List (String × ℚ)) : List (String × ℚ) :=
  if 0 < sumVals fb then fb.map (fun p => (p.1, p.2 / sumVals fb)) else fb

/-- The raw (pre-normalization) band energies produced by whichever
spectral path _analyze_frequency_balance takes; none when that path
raised (the caught exception leads to the fallback constants). -/
def rawBandEnergies (env : AnalysisEnv) (audio : PyAudio) :
    Option (List (String × ℚ)) :=
  if env.hasLibrosa ∧ 1024 < pyLen audio then
    match env.librosaSpectrum with
    | .ok s => some (bandEnergies s)
    | .error _ => none
  else
    match env.fftPairs with
    | .ok s => some (bandEnergies (s.filter fun p => decide (0 < p.1)))
    | .error _ => none

/-- _analyze_frequency_balance / _basic_frequency_analysis: normalize the
raw band energies, or return the fallback constants when the spectral
computation raised. -/
def analyze_frequency_balance (env : AnalysisEnv) (audio : PyAudio) :
    List (String × ℚ) :=
  match rawBandEnergies env audio with
  | some es => normalizeBalance es
  | none => fallbackBalance5

/-- np.argmax over the second components, returning the first maximal
pair as numpy does. -/
def argmaxSnd : List (ℚ × ℚ) → Option (ℚ × ℚ)
  | [] => none
  | p :: ps =>
    match argmaxSnd ps with
    | none => some p
    | some q => if q.2 > p.2 then some q else some p

/-- _find_peak_frequency: frequency of the maximal-magnitude strictly
positive bin, 440.0 when none exists or the FFT raised. -/
def find_peak_frequency (env : AnalysisEnv) : ℚ :=
  match env.fftPairs with
  | .ok pairs =>
    match argmaxSnd (pairs.filter fun p => decide (0 < p.1)) with
    | some p => |p.1|
    | none => 440
  | .error _ => 440

/-- The second (effective) definition of _calculate_stereo_width
(analyzer.py line 418): width = 1 - |corr| with no NaN guard and no
clamp, so a NaN correlation produces a NaN width (none). -/
def calculate_stereo_width (env : AnalysisEnv) : Option ℚ :=
  match env.corr with
  | some c => some (1 - |c|)
  | none => none

/-- MixAnalyzer.extract_features.  Empty input raises ValueError; any
exception escaping the body yields the safe-default record (the
np.max call raises on an empty flattened sample list, so that case also
lands in the outer handler); otherwise the record is assembled from the
embedded sub-analyses, each with its own documented per-field fallback. -/
def extract_features (env : AnalysisEnv) (audio : PyAudio) :
    Except String AudioFeatures :=
  if pyLen audio = 0 then .error "Invalid audio data provided"
  else if env.outerException then .ok safeDefaultFeatures
  else if (samplesOf audio).isEmpty then .ok safeDefaultFeatures
  else
    let spectral :=
      if env.hasLibrosa ∧ 1024 < pyLen audio then
        match env.librosaSpectral with
        | .ok v => v
        | .error _ => (1000, 8000)
      else (1000, 8000)
    .ok
      { spectral_centroid := spectral.1
        spectral_rolloff := spectral.2
        rms_energy_sq := meanSq (samplesOf audio)
        dynamic_range := listMax (samplesOf audio) - listMin (samplesOf audio)
        frequency_balance := analyze_frequency_balance env audio
        stereo_width :=
          match audio with
          | .mono _ => some 0
          | .multi chs =>
            if 1 < chs.length then calculate_stereo_width env else some 0
        peak_frequency := find_peak_frequency env }

/-! ## Processing engine (sauce_maximizer/core/optimizer.py, AudioProcessor) -/

/-- An audio buffer handed to the processing engine (mono signal path). -/
abbrev Audio := List ℚ

/-- Oracle for the external numeric routines the processing engine calls.
Each field stands for one library computation whose exact value is
transcendental; everything around them is embedded directly. -/
structure DSPExt where
  /-- scipy signal.butter (2, nf, btype high) followed by sosfilt;
  butter raises for a corner frequency outside (0, 1). -/
  sosfiltHigh : ℚ → Audio → Except String Audio
  /-- scipy signal.butter (2, nf, btype low) followed by sosfilt. -/
  sosfiltLow : ℚ → Audio → Except String Audio
  /-- np.tanh. -/
  tanh : ℚ → ℚ
  /-- 10 ^ (x) for rational x (used as 10 ^ (dB / 20), always positive). -/
  pow10 : ℚ → ℚ
  /-- 1 - exp (-1 / max 1 n): the attack or release coefficient derived
  from a sample count; lies in (0, 1). -/
  envCoeff : ℤ → ℚ

/-- One entry of ProcessingChain.steps: a dict with a type tag and a
parameter mapping (step.get (params, empty dict)). -/
structure ProcStep where
  type : String
  params : PDict

/-- ProcessingChain dataclass. -/
structure ProcessingChain where
  name : String
  steps : List ProcStep
  target_characteristics : List (String × ℚ)
  estimated_improvement : ℚ

/-- The processing report built by apply_processing_chain; before_rms and
after_rms store the mean square whose square root the source stores. -/
structure ProcessingReport where
  chain_name : String
  steps_applied : List String
  before_rms : ℚ
  after_rms : ℚ
  processing_artifacts : List String
deriving DecidableEq

/-- AudioProcessor._apply_high_shelf: at or above Nyquist return the
input; otherwise blend the high-passed signal back with the gain. -/
def apply_high_shelf (ext : DSPExt) (sr : ℚ) (audio : Audio)
    (params : PDict) : Except String Audio :=
  let freq := pdictGetNum params "freq" 8000
  let gain := ext.pow10 (pdictGetNum params "gain" 0 / 20)
  let nf := freq / (sr / 2)
  if 1 ≤ nf then .ok audio
  else
    (ext.sosfiltHigh nf audio).map fun filtered =>
      List.zipWith (fun a f => a + (f - a) * (gain - 1)) audio filtered

/-- AudioProcessor._apply_low_shelf: at or above Nyquist scale the whole
signal by the gain; otherwise blend the low-passed signal back. -/
def apply_low_shelf (ext : DSPExt) (sr : ℚ) (audio : Audio)
    (params : PDict) : Except String Audio :=
  let freq := pdictGetNum params "freq" 200
  let gain := ext.pow10 (pdictGetNum params "gain" 0 / 20)
  let nf := freq / (sr / 2)
  if 1 ≤ nf then .ok (audio.map fun a => a * gain)
  else
    (ext.sosfiltLow nf audio).map fun filtered =>
      List.zipWith (fun a f => a + (f - a) * (gain - 1)) audio filtered

/-- AudioProcessor._apply_high_pass. -/
def apply_high_pass (ext : DSPExt) (sr : ℚ) (audio : Audio)
    (params : PDict) : Except String Audio :=
  let freq := pdictGetNum params "freq" 80
  let nf := freq / (sr / 2)
  if 1 ≤ nf then .ok (audio.map fun _ => 0)
  else if nf ≤ 0 then .ok audio
  else ext.sosfiltHigh nf audio

/-- AudioProcessor._apply_bell_filter: an explicit pass-through that
ignores its parameters. -/
def apply_bell_filter (audio : Audio) : Except String Audio := .ok audio

/-- AudioProcessor._apply_saturation: tanh drive in soft mode, hard clip
to plus or minus (1 - drive) otherwise. -/
def apply_saturation (ext : DSPExt) (audio : Audio) (params : PDict) :
    Audio :=
  let drive := pdictGetNum params "drive" (1/10)
  let satType := pdictGetStr params "type" "soft"
  if satType = "soft" then audio.map fun x => ext.tanh (x * (1 + drive))
  else audio.map fun x => pyClip x (-(1 - drive)) (1 - drive)

/-- One eq-type dispatch step of AudioProcessor.apply_eq; an unknown
eq type leaves the signal untouched, and the shelf and pass filters
first read their parameter value as a dict. -/
def apply_eq_sub (ext : DSPExt) (sr : ℚ) (audio : Audio)
    (eqType : String) (v : PVal) : Except String Audio :=
  if eqType = "high_shelf" then (asDict v).bind (apply_high_shelf ext sr audio)
  else if eqType = "low_shelf" then (asDict v).bind (apply_low_shelf ext sr audio)
  else if eqType = "high_pass" then (asDict v).bind (apply_high_pass ext sr audio)
  else if eqType = "bell" then apply_bell_filter audio
  else .ok audio

/-- The iteration of apply_eq over eq_params.items (); an exception from
any filter aborts the whole eq step. -/
def apply_eq_go (ext : DSPExt) (sr : ℚ) : Audio → PDict → Except String Audio
  | audio, [] => .ok audio
  | audio, (k, v) :: rest => do
    apply_eq_go ext sr (← apply_eq_sub ext sr audio k v) rest

/-- AudioProcessor.apply_eq: empty parameters return the input unchanged. -/
def apply_eq (ext : DSPExt) (sr : ℚ) (audio : Audio) (eqParams : PDict) :
    Except String Audio :=
  if eqParams.isEmpty then .ok audio
  else apply_eq_go ext sr audio eqParams

/-- AudioProcessor._calculate_envelope: per-sample peak detector over
the absolute signal, rising with the attack coefficient when the sample
exceeds the current level and falling with the release coefficient
otherwise, starting from level 0. -/
def calculate_envelope (ac rc : ℚ) : List ℚ → ℚ → List ℚ
  | [], _ => []
  | x :: xs, lvl =>
    let lvl2 := if lvl < |x| then lvl + (|x| - lvl) * ac
                else lvl + (|x| - lvl) * rc
    lvl2 :: calculate_envelope ac rc xs lvl2

/-- Per-sample gain reduction: 1 below the linear threshold, and
1 / (1 + (excess - 1) (ratio - 1) / ratio) with excess = e / tl above. -/
def gain_reduction (tl ratio e : ℚ) : ℚ :=
  if tl < e then 1 / (1 + (e / tl - 1) * (ratio - 1) / ratio) else 1

/-- AudioProcessor.apply_compression: empty parameters return the input
unchanged; otherwise multiply the signal by the envelope-driven
gain-reduction curve. -/
def apply_compression (ext : DSPExt) (sr : ℚ) (audio : Audio)
    (compParams : PDict) : Audio :=
  if compParams.isEmpty then audio
  else
    let threshold := pdictGetNum compParams "threshold" (-12)
    let ratio := pdictGetNum compParams "ratio" 4
    let attack := pdictGetNum compParams "attack" 10
    let release := pdictGetNum compParams "release" 100
    let tl := ext.pow10 (threshold / 20)
    let env := calculate_envelope
      (ext.envCoeff (pyInt (attack * sr / 1000)))
      (ext.envCoeff (pyInt (release * sr / 1000))) audio 0
    List.zipWith (fun a e => a * gain_reduction tl ratio e) audio env

/-- The per-step dispatch inside apply_processing_chain: eq, compression
and saturation route to their primitives, any other kind is a no-op. -/
def apply_step (ext : DSPExt) (sr : ℚ) (audio : Audio) (s : ProcStep) :
    Except String Audio :=
  if s.type = "eq" then apply_eq ext sr audio s.params
  else if s.type = "compression" then .ok (apply_compression ext sr audio s.params)
  else if s.type = "saturation" then .ok (apply_saturation ext audio s.params)
  else .ok audio

/-- The chain loop: on success the step kind is appended to
steps_applied; on an exception an Error-in message is appended to
processing_artifacts and the loop continues with the previous signal.
Returns (processed, steps_applied, processing_artifacts). -/
def run_steps (ext : DSPExt) (sr : ℚ) :
    Audio → List ProcStep → Audio × List String × List String
  | audio, [] => (audio, [], [])
  | audio, s :: rest =>
    match apply_step ext sr audio s with
    | .ok audio2 =>
      let r := run_steps ext sr audio2 rest
      (r.1, s.type :: r.2.1, r.2.2)
    | .error msg =>
      let r := run_steps ext sr audio rest
      (r.1, r.2.1, ("Error in " ++ s.type ++ ": " ++ msg) :: r.2.2)

/-- AudioProcessor.apply_processing_chain (the history side effect,
which no claim concerns, is not modelled): run the steps and assemble
the report with the before and after rms. -/
def apply_processing_chain (ext : DSPExt) (sr : ℚ) (audio : Audio)
    (chain : ProcessingChain) : Audio × ProcessingReport :=
  let r := run_steps ext sr audio chain.steps
  (r.1,
   { chain_name := chain.name
     steps_applied := r.2.1
     before_rms := meanSq audio
     after_rms := meanSq r.1
     processing_artifacts := r.2.2 })

/-! ## Decision engine (AudioProcessor.generate_adaptive_chain) -/

/-- total_energy = sum (balance.values ()) if balance else 1. -/
def gac_total (f : AudioFeatures) : ℚ :=
  if f.frequency_balance.isEmpty then 1 else sumVals f.frequency_balance

/-- The eq_needed dict assembled by generate_adaptive_chain. -/
def gac_eq_needed (f : AudioFeatures) (style : String) : PDict :=
  if 0 < gac_total f then
    (if lookupQ f.frequency_balance "bass" 0 / gac_total f < 3/20 then
      [("low_shelf", PVal.dict
        [("freq", .num 100), ("gain", .num (5/2)), ("q", .num (7/10))])]
    else if 7/20 < lookupQ f.frequency_balance "bass" 0 / gac_total f then
      [("high_pass", PVal.dict [("freq", .num 60), ("q", .num (7/10))])]
    else []) ++
    (if lookupQ f.frequency_balance "highs" 0 / gac_total f < 2/25
        ∧ (style = "bright" ∨ style = "balanced") then
      [("high_shelf", PVal.dict
        [("freq", .num 10000), ("gain", .num (9/5)), ("q", .num (7/10))])]
    else [])
  else []

/-- The step list generate_adaptive_chain builds: an eq step when any
eq adjustment is needed, a compression step when dynamic range exceeds
0.7, a saturation step for the warm and vintage styles. -/
def gac_steps (f : AudioFeatures) (style : String) : List ProcStep :=
  (if (gac_eq_needed f style).isEmpty then []
   else [ProcStep.mk "eq" (gac_eq_needed f style)]) ++
  (if 7/10 < f.dynamic_range then
    [ProcStep.mk "compression"
      [("threshold", .num (-15)), ("ratio", .num (7/2)),
       ("attack", .num 15), ("release", .num 120)]]
   else []) ++
  (if style = "warm" ∨ style = "vintage" then
    [ProcStep.mk "saturation" [("drive", .num (3/20)), ("type", .str "tape")]]
   else [])

/-- AudioProcessor.generate_adaptive_chain. -/
def generate_adaptive_chain (f : AudioFeatures) (style : String) :
    ProcessingChain :=
  { name := "adaptive_" ++ style
    steps := gac_steps f style
    target_characteristics :=
      [("brightness", if style = "bright" then 7/10 else 1/2),
       ("warmth", if style = "warm" then 4/5 else 2/5),
       ("punch", 3/5), ("clarity", 4/5)]
    estimated_improvement := min (4/5) ((gac_steps f style).length * (1/5)) }

/-! ## Quality predictor (sauce_maximizer/models/flavor_predictor.py) -/

/-- MixPredictor state.  The fitted regressor and scaler are abstract
function-valued fields (their numerics live in sklearn); quality_model
is absent until training succeeds. -/
structure MixPredictor where
  model_type : String
  quality_model : Option (List ℚ → ℚ)
  /-- StandardScaler.transform with whatever fit it currently carries. -/
  scaler : List ℚ → List ℚ
  feature_names : List String
  is_trained : Bool

/-- MixPredictor.__init__. -/
def initMixPredictor (modelType : String) : MixPredictor :=
  { model_type := modelType
    quality_model := none
    scaler := fun v => v
    feature_names := []
    is_trained := false }

/-- MixPredictor._categorize_quality. -/
def categorize_quality (q : ℚ) : String :=
  if 4/5 ≤ q then "professional"
  else if 3/5 ≤ q then "good"
  else if 2/5 ≤ q then "needs_work"
  else "requires_major_improvement"

/-- MixPredictor._analyze_improvement_areas: threshold rules over the
raw feature mapping. -/
def analyze_improvement_areas (features : List (String × ℚ)) : List String :=
  let bass := lookupQ features "bass_energy" 0
  let high := lookupQ features "high_energy" 0
  let total := lookupQ features "bass_energy" 0 + lookupQ features "mid_energy" 0
    + lookupQ features "high_energy" 0
  let dr := lookupQ features "dynamic_range" 0
  let sw := lookupQ features "stereo_width" (1/2)
  let rms := lookupQ features "rms_energy" 0
  (if 0 < total then
    (if bass / total < 1/10 then ["insufficient_low_end"]
     else if 9/20 < bass / total then ["excessive_bass"] else []) ++
    (if high / total < 1/20 then ["lacks_brightness"] else [])
   else []) ++
  (if dr < 1/10 then ["over_compressed"]
   else if 9/10 < dr then ["needs_compression"] else []) ++
  (if sw < 1/5 then ["too_narrow"]
   else if 9/10 < sw then ["too_wide"] else []) ++
  (if rms < 1/10 then ["too_quiet"]
   else if 4/5 < rms then ["too_loud"] else [])

/-- The record returned by MixPredictor.predict_mix_quality. -/
structure QualityPrediction where
  overall_quality : ℚ
  confidence : ℚ
  improvement_areas : List String
  predicted_rating : ℚ
  quality_category : String

/-- MixPredictor.predict_mix_quality as a state transformer: the
untrained precondition raises ValueError with an explicit message
before anything else happens, and the method never writes any state. -/
def predict_mix_quality (st : MixPredictor) (features : List (String × ℚ)) :
    Except String QualityPrediction × MixPredictor :=
  if st.is_trained = false then
    (.error "Model must be trained before prediction", st)
  else
    match st.quality_model with
    | none => (.error "AttributeError: quality model is absent", st)
    | some model =>
      let vec := st.feature_names.map fun n => lookupQ features n 0
      let score := pyClip (model (st.scaler vec) / 10) 0 1
      (.ok
        { overall_quality := score
          confidence := 17/20
          improvement_areas := analyze_improvement_areas features
          predicted_rating := score * 10
          quality_category := categorize_quality score }, st)

/-! ## Concrete oracles and inputs used by witnesses -/

/-- A benign oracle: filters pass the signal through, tanh is the
identity, every power of ten is 1 and every envelope coefficient is 1. -/
def extId : DSPExt :=
  { sosfiltHigh := fun _ a => .ok a
    sosfiltLow := fun _ a => .ok a
    tanh := fun x => x
    pow10 := fun _ => 1
    envCoeff := fun _ => 1 }

/-- An oracle whose filters raise, standing for scipy rejecting an
invalid filter configuration. -/
def extFail : DSPExt :=
  { sosfiltHigh := fun _ _ => .error "invalid filter configuration"
    sosfiltLow := fun _ _ => .error "invalid filter configuration"
    tanh := fun x => x
    pow10 := fun _ => 1
    envCoeff := fun _ => 1 }

/-- A chain with no steps. -/
def emptyChain : ProcessingChain :=
  { name := "empty", steps := [], target_characteristics := [],
    estimated_improvement := 0 }

/-- An eq step whose low-shelf filter call will raise under extFail. -/
def badEqStep : ProcStep := ProcStep.mk "eq" [("low_shelf", PVal.dict [])]

/-- A compression step with empty parameters (a pure pass-through). -/
def emptyCompStep : ProcStep := ProcStep.mk "compression" []

/-- A step of a kind the chain dispatch does not recognize. -/
def limiterStep : ProcStep := ProcStep.mk "limiter" []

/-- Parameters used by the C3 witness. -/
def compWitnessParams : PDict := [("ratio", PVal.num 2)]

/-- The concrete feature record of the C2 witness: five band ratios
summing to 1 with bass share 0.05 and highs share 0.2, dynamic
range 0.9. -/
def balancedWitnessFeatures : AudioFeatures :=
  { spectral_centroid := 1000
    spectral_rolloff := 8000
    rms_energy_sq := 1/100
    dynamic_range := 9/10
    frequency_balance :=
      [("bass", 1/20), ("low_mids", 1/4), ("mids", 3/10),
       ("high_mids", 1/5), ("highs", 1/5)]
    stereo_width := some 0
    peak_frequency := 440 }

/-- The spectral magnitudes an analysis environment reports are
nonnegative (they are absolute values in the source). -/
def EnvMagsNonneg (env : AnalysisEnv) : Prop :=
  (∀ s, env.librosaSpectrum = Except.ok s → ∀ p ∈ s, 0 ≤ p.2) ∧
  (∀ s, env.fftPairs = Except.ok s → ∀ p ∈ s, 0 ≤ p.2)

/-- Concrete environment for the C7 witness: no librosa, a two-bin FFT
with one bass bin and one highs bin of magnitude 2. -/
def env7 : AnalysisEnv :=
  { hasLibrosa := false
    outerException := false
    librosaSpectral := .ok (0, 0)
    librosaSpectrum := .ok []
    fftPairs := .ok [(100, 2), (5000, 2)]
    corr := some 0 }

/-- Concrete mono buffer for the C7 witness. -/
def audio7 : PyAudio := .mono [1, 1, 1]

/-- The raw band energies the C7 witness environment yields. -/
def es7 : List (String × ℚ) :=
  [("bass", 2), ("low_mids", 0), ("mids", 0), ("high_mids", 0), ("highs", 2)]

/-- The record extract returns in the C7 witness scenario. -/
def r7 : AudioFeatures :=
  { spectral_centroid := 1000
    spectral_rolloff := 8000
    rms_energy_sq := 1
    dynamic_range := 0
    frequency_balance :=
      [("bass", 1/2), ("low_mids", 0), ("mids", 0), ("high_mids", 0),
       ("highs", 1/2)]
    stereo_width := some 0
    peak_frequency := 100 }

/-- Environment in which the basic FFT raises, so both the frequency
balance and the peak-frequency sub-analyses fail internally. -/
def env1 : AnalysisEnv :=
  { hasLibrosa := false
    outerException := false
    librosaSpectral := .ok (0, 0)
    librosaSpectrum := .ok []
    fftPairs := .error "fft failed"
    corr := none }

/-- The record extract actually returns for the buffer of two samples
1 and -1 under env1: per-field fallbacks, but computed rms and dynamic
range, so not the documented full safe-default record. -/
def r1 : AudioFeatures :=
  { spectral_centroid := 1000
    spectral_rolloff := 8000
    rms_energy_sq := 1
    dynamic_range := 2
    frequency_balance := fallbackBalance5
    stereo_width := some 0
    peak_frequency := 440 }

/-- Environment whose whole analysis body fails, for the C1 witness. -/
def envC1 : AnalysisEnv :=
  { hasLibrosa := false
    outerException := true
    librosaSpectral := .ok (0, 0)
    librosaSpectrum := .ok []
    fftPairs := .ok []
    corr := none }

/-- The first, shadowed definition of _calculate_stereo_width
(analyzer.py lines 325-350), which treats a NaN correlation as width
0.5 and clamps to the unit interval.  The later duplicate definition at
line 418 replaces it, so in the running program this is dead code. -/
def calculate_stereo_width_v1 (env : AnalysisEnv) : Option ℚ :=
  match env.corr with
  | some c => some (pyClip (1 - |c|) 0 1)
  | none => some (1/2)

/-- Environment of a silent two-channel buffer: both channels constant,
so np.corrcoef returns NaN (modelled none); the FFT of silence has only
zero magnitudes. -/
def nanEnv : AnalysisEnv :=
  { hasLibrosa := false
    outerException := false
    librosaSpectral := .ok (0, 0)
    librosaSpectrum := .ok []
    fftPairs := .ok [(0, 0), (-22050, 0)]
    corr := none }

/-- A two-channel all-zero buffer. -/
def silentStereo : PyAudio := .multi [[0, 0], [0, 0]]

/-! ## Claims -/

/-- Claim C4: applying a processing chain whose step list is empty
returns the input buffer unchanged, and the report records equal
before and after rms (equal mean squares, hence equal rms). -/
theorem empty_chain_roundtrip (ext : DSPExt) (sr : ℚ) (audio : Audio)
    (chain : ProcessingChain) (h : chain.steps = []) :
    (apply_processing_chain ext sr audio chain).1 = audio ∧
    (apply_processing_chain ext sr audio chain).2.before_rms =
      (apply_processing_chain ext sr audio chain).2.after_rms := by
  simp [apply_processing_chain, h, run_steps]

/-- Witness for C4 at a concrete buffer and the concrete empty chain. -/
theorem empty_chain_roundtrip_witness :
    (apply_processing_chain extId 44100 [1, 2] emptyChain).1 = [1, 2] ∧
    (apply_processing_chain extId 44100 [1, 2] emptyChain).2.before_rms =
      (apply_processing_chain extId 44100 [1, 2] emptyChain).2.after_rms :=
  empty_chain_roundtrip extId 44100 [1, 2] emptyChain rfl

/-- Claim C5: when a chain step raises, the failure is caught, a
message made of the step kind and the error text is recorded in the
report artifacts, the step is not added to steps_applied, and the
remaining steps still run on the unmodified signal. -/
theorem step_failure_recorded_chain_continues (ext : DSPExt) (sr : ℚ)
    (audio : Audio) (s : ProcStep) (rest : List ProcStep) (msg : String)
    (h : apply_step ext sr audio s = .error msg) :
    run_steps ext sr audio (s :: rest) =
      ((run_steps ext sr audio rest).1,
       (run_steps ext sr audio rest).2.1,
       ("Error in " ++ s.type ++ ": " ++ msg)
         :: (run_steps ext sr audio rest).2.2) := by
  simp [run_steps, h]

/-- Witness for C5: a failing eq step followed by a compression step;
the error is recorded and the compression step still runs. -/
theorem step_failure_recorded_chain_continues_witness :
    run_steps extFail 44100 [1] [badEqStep, emptyCompStep] =
      ([1], ["compression"], ["Error in eq: invalid filter configuration"]) := by
  have h : apply_step extFail 44100 [1] badEqStep
      = .error "invalid filter configuration" := by
    simp [apply_step, badEqStep, apply_eq, apply_eq_go, apply_eq_sub,
      apply_low_shelf, asDict, extFail, pdictGetNum, pdictGetStr, pdictFind,
      Except.bind, Except.map]
    norm_num
    rfl
  rw [step_failure_recorded_chain_continues extFail 44100 [1] badEqStep
    [emptyCompStep] "invalid filter configuration" h]
  simp [run_steps, apply_step, emptyCompStep, apply_compression, badEqStep]

/-- Claim C8: predicting on an untrained predictor fails with the
explicit model-not-trained message and leaves the state untouched. -/
theorem predict_untrained_fails_explicitly (st : MixPredictor)
    (features : List (String × ℚ)) (h : st.is_trained = false) :
    predict_mix_quality st features =
      (.error "Model must be trained before prediction", st) := by
  simp [predict_mix_quality, h]

/-- Witness for C8 on a newly constructed predictor. -/
theorem predict_untrained_fails_explicitly_witness :
    predict_mix_quality (initMixPredictor "random_forest") [] =
      (.error "Model must be trained before prediction",
       initMixPredictor "random_forest") :=
  predict_untrained_fails_explicitly (initMixPredictor "random_forest") [] rfl

/-- Claim C9: with an empty parameter mapping both the EQ primitive and
the compression primitive return the input unchanged. -/
theorem empty_params_identity (ext : DSPExt) (sr : ℚ) (audio : Audio) :
    apply_eq ext sr audio [] = .ok audio ∧
    apply_compression ext sr audio [] = audio :=
  ⟨rfl, rfl⟩

/-- Claim C10: a step whose kind is none of eq, compression or
saturation leaves the signal unchanged, yet its kind is still appended
to the steps_applied list of the chain run. -/
theorem unknown_step_noop_still_recorded (ext : DSPExt) (sr : ℚ)
    (audio : Audio) (s : ProcStep) (rest : List ProcStep)
    (h1 : s.type ≠ "eq") (h2 : s.type ≠ "compression")
    (h3 : s.type ≠ "saturation") :
    apply_step ext sr audio s = .ok audio ∧
    run_steps ext sr audio (s :: rest) =
      ((run_steps ext sr audio rest).1,
       s.type :: (run_steps ext sr audio rest).2.1,
       (run_steps ext sr audio rest).2.2) := by
  have ha : apply_step ext sr audio s = .ok audio := by
    simp [apply_step, h1, h2, h3]
  exact ⟨ha, by simp [run_steps, ha]⟩

/-- Witness for C10 with a limiter step, a kind the dispatch ignores. -/
theorem unknown_step_noop_still_recorded_witness :
    apply_step extId 44100 [2] limiterStep = .ok [2] ∧
    run_steps extId 44100 [2] [limiterStep] =
      ((run_steps extId 44100 [2] []).1,
       limiterStep.type :: (run_steps extId 44100 [2] []).2.1,
       (run_steps extId 44100 [2] []).2.2) :=
  unknown_step_noop_still_recorded extId 44100 [2] limiterStep []
    (by decide) (by decide) (by decide)

/-! ## Claim C3: compression never raises the peak -/

/-- maxAbs of a cons unfolds to a binary max. -/
lemma maxAbs_cons (x : ℚ) (xs : List ℚ) :
    maxAbs (x :: xs) = max |x| (maxAbs xs) := rfl

/-- maxAbs is nonnegative. -/
lemma maxAbs_nonneg (xs : List ℚ) : 0 ≤ maxAbs xs := by
  induction xs with
  | nil => simp [maxAbs]
  | cons x xs ih => rw [maxAbs_cons]; exact le_trans ih (le_max_right _ _)

/-- Above the threshold the gain-reduction factor is positive, below it
is exactly 1; in both cases it is nonnegative. -/
lemma gain_reduction_nonneg (tl ratio e : ℚ) (h0 : 0 < tl)
    (h1 : 1 < ratio) : 0 ≤ gain_reduction tl ratio e := by
  unfold gain_reduction
  split
  · next hlt =>
    have he : 1 < e / tl := (one_lt_div h0).mpr hlt
    have hd : 0 < (e / tl - 1) * (ratio - 1) / ratio :=
      div_pos (mul_pos (by linarith) (by linarith)) (by linarith)
    positivity
  · norm_num

/-- The gain-reduction factor never exceeds 1 for a positive linear
threshold and a ratio above 1. -/
lemma gain_reduction_le_one (tl ratio e : ℚ) (h0 : 0 < tl)
    (h1 : 1 < ratio) : gain_reduction tl ratio e ≤ 1 := by
  unfold gain_reduction
  split
  · next hlt =>
    have he : 1 < e / tl := (one_lt_div h0).mpr hlt
    have hd : 0 < (e / tl - 1) * (ratio - 1) / ratio :=
      div_pos (mul_pos (by linarith) (by linarith)) (by linarith)
    rw [div_le_one (by linarith)]
    linarith
  · norm_num

/-- Multiplying each sample by its gain-reduction factor cannot raise
the maximal absolute sample, whatever the envelope list is. -/
lemma zip_gain_le (tl ratio : ℚ) (h0 : 0 < tl) (h1 : 1 < ratio) :
    ∀ (xs es : List ℚ),
      maxAbs (List.zipWith (fun a e => a * gain_reduction tl ratio e) xs es)
        ≤ maxAbs xs := by
  intro xs
  induction xs with
  | nil => intro es; simp [maxAbs]
  | cons x xs ih =>
    intro es
    cases es with
    | nil =>
      simp [maxAbs]
    | cons e es =>
      have hx : |x * gain_reduction tl ratio e| ≤ |x| := by
        rw [abs_mul, abs_of_nonneg (gain_reduction_nonneg tl ratio e h0 h1)]
        calc |x| * gain_reduction tl ratio e
            ≤ |x| * 1 :=
              mul_le_mul_of_nonneg_left
                (gain_reduction_le_one tl ratio e h0 h1) (abs_nonneg x)
          _ = |x| := mul_one _
      calc maxAbs (List.zipWith (fun a e => a * gain_reduction tl ratio e)
              (x :: xs) (e :: es))
          = max |x * gain_reduction tl ratio e|
              (maxAbs (List.zipWith (fun a e => a * gain_reduction tl ratio e)
                xs es)) := rfl
        _ ≤ max |x| (maxAbs xs) := max_le_max hx (ih es)
        _ = maxAbs (x :: xs) := (maxAbs_cons x xs).symm

/-- Claim C3: for ratio above 1 and a positive linear threshold below
the peak, compression never increases the peak amplitude. -/
theorem compression_never_raises_peak (ext : DSPExt) (sr : ℚ)
    (audio : Audio) (params : PDict)
    (hr : 1 < pdictGetNum params "ratio" 4)
    (ht : 0 < ext.pow10 (pdictGetNum params "threshold" (-12) / 20))
    (hp : ext.pow10 (pdictGetNum params "threshold" (-12) / 20) < maxAbs audio) :
    maxAbs (apply_compression ext sr audio params) ≤ maxAbs audio := by
  rw [apply_compression]
  split
  · exact le_rfl
  · exact zip_gain_le _ _ ht hr audio _

/-- Witness for C3 with a concrete buffer, ratio 2 and linear
threshold 1 below the peak 2. -/
theorem compression_never_raises_peak_witness :
    maxAbs (apply_compression extId 44100 [2] compWitnessParams) ≤ maxAbs [2] :=
  compression_never_raises_peak extId 44100 [2] compWitnessParams
    (by norm_num [pdictGetNum, pdictFind, compWitnessParams])
    (by norm_num [extId])
    (by norm_num [extId, maxAbs])

/-! ## Claim C2: the balanced decision path for thin bass and wide dynamics -/

/-- Claim C2: a record whose normalized bass share is 0.05, highs share
is 0.2 and dynamic range is 0.9 makes the balanced decision path emit a
chain with a low-shelf boost eq step and a compression step whose
threshold lies between -15 and -12 dB. -/
theorem balanced_chain_low_shelf_and_compression (f : AudioFeatures)
    (hT : 0 < gac_total f)
    (hb : lookupQ f.frequency_balance "bass" 0 / gac_total f = 1/20)
    (hh : lookupQ f.frequency_balance "highs" 0 / gac_total f = 1/5)
    (hd : f.dynamic_range = 9/10) :
    (∃ p : PDict,
      ProcStep.mk "eq" p ∈ (generate_adaptive_chain f "balanced").steps ∧
      ∃ d : PDict, pdictFind p "low_shelf" = some (PVal.dict d) ∧
        0 < pdictGetNum d "gain" 0) ∧
    (∃ p : PDict,
      ProcStep.mk "compression" p ∈ (generate_adaptive_chain f "balanced").steps ∧
      -15 ≤ pdictGetNum p "threshold" (-12) ∧
        pdictGetNum p "threshold" (-12) ≤ -12) := by
  have e1 : lookupQ f.frequency_balance "bass" 0 / gac_total f < 3/20 := by
    rw [hb]; norm_num
  have e2 : ¬ (lookupQ f.frequency_balance "highs" 0 / gac_total f < 2/25) := by
    rw [hh]; norm_num
  have e3 : (7:ℚ)/10 < f.dynamic_range := by rw [hd]; norm_num
  have hsteps : (generate_adaptive_chain f "balanced").steps =
      [ProcStep.mk "eq"
        [("low_shelf", PVal.dict
          [("freq", .num 100), ("gain", .num (5/2)), ("q", .num (7/10))])],
       ProcStep.mk "compression"
        [("threshold", .num (-15)), ("ratio", .num (7/2)),
         ("attack", .num 15), ("release", .num 120)]] := by
    simp [generate_adaptive_chain, gac_steps, gac_eq_needed, hT, e1, e2, e3]
  constructor
  · refine ⟨[("low_shelf", PVal.dict
      [("freq", .num 100), ("gain", .num (5/2)), ("q", .num (7/10))])],
      ?_, [("freq", .num 100), ("gain", .num (5/2)), ("q", .num (7/10))],
      ?_, ?_⟩
    · rw [hsteps]; exact List.mem_cons_self _ _
    · simp [pdictFind]
    · simp only [pdictGetNum, pdictFind, String.reduceEq]
      norm_num
  · refine ⟨[("threshold", .num (-15)), ("ratio", .num (7/2)),
      ("attack", .num 15), ("release", .num 120)], ?_, ?_, ?_⟩
    · rw [hsteps]; exact List.mem_cons_of_mem _ (List.mem_cons_self _ _)
    · norm_num [pdictGetNum, pdictFind]
    · norm_num [pdictGetNum, pdictFind]

/-- Witness for C2 at the concrete record above. -/
theorem balanced_chain_low_shelf_and_compression_witness :
    (∃ p : PDict,
      ProcStep.mk "eq" p ∈
        (generate_adaptive_chain balancedWitnessFeatures "balanced").steps ∧
      ∃ d : PDict, pdictFind p "low_shelf" = some (PVal.dict d) ∧
        0 < pdictGetNum d "gain" 0) ∧
    (∃ p : PDict,
      ProcStep.mk "compression" p ∈
        (generate_adaptive_chain balancedWitnessFeatures "balanced").steps ∧
      -15 ≤ pdictGetNum p "threshold" (-12) ∧
        pdictGetNum p "threshold" (-12) ≤ -12) :=
  balanced_chain_low_shelf_and_compression balancedWitnessFeatures
    (by norm_num [gac_total, sumVals, balancedWitnessFeatures])
    (by simp only [balancedWitnessFeatures, gac_total, sumVals, lookupQ,
          List.find?, String.reduceBEq]
        norm_num)
    (by simp only [balancedWitnessFeatures, gac_total, sumVals, lookupQ,
          List.find?, String.reduceBEq]
        norm_num)
    (by norm_num [balancedWitnessFeatures])

/-! ## Claim C7: balance ratios sum to one or are all zero -/

/-- A list of nonnegative rationals summing to zero is all zero. -/
lemma sum_zero_of_nonneg (l : List ℚ) (h : ∀ x ∈ l, 0 ≤ x)
    (hs : l.sum = 0) : ∀ x ∈ l, x = 0 := by
  induction l with
  | nil => intro x hx; cases hx
  | cons a l ih =>
    have ha : 0 ≤ a := h a (List.mem_cons_self a l)
    have hl : 0 ≤ l.sum :=
      List.sum_nonneg fun x hx => h x (List.mem_cons_of_mem a hx)
    rw [List.sum_cons] at hs
    intro x hx
    rcases List.mem_cons.mp hx with hxa | hxl
    · subst hxa; linarith
    · exact ih (fun y hy => h y (List.mem_cons_of_mem a hy)) (by linarith) x hxl

/-- Dividing every value by t divides the value sum by t. -/
lemma sumVals_map_div (fb : List (String × ℚ)) (t : ℚ) :
    sumVals (fb.map fun p => (p.1, p.2 / t)) = sumVals fb / t := by
  induction fb with
  | nil => simp [sumVals]
  | cons a fb ih =>
    simp only [sumVals, List.map_cons, List.sum_cons] at *
    rw [ih, add_div]

/-- A band energy is nonnegative when the magnitudes are. -/
lemma bandEnergy_nonneg (spec : List (ℚ × ℚ)) (lo hi : ℚ)
    (h : ∀ p ∈ spec, 0 ≤ p.2) : 0 ≤ bandEnergy spec lo hi := by
  simp only [bandEnergy]
  split
  · exact le_rfl
  · refine div_nonneg (List.sum_nonneg ?_) (Nat.cast_nonneg _)
    intro y hy
    rcases List.mem_map.mp hy with ⟨p, hp, rfl⟩
    exact h p (List.mem_of_mem_filter hp)

/-- All five band energies are nonnegative when the magnitudes are. -/
lemma bandEnergies_nonneg (spec : List (ℚ × ℚ))
    (h : ∀ p ∈ spec, 0 ≤ p.2) : ∀ p ∈ bandEnergies spec, 0 ≤ p.2 := by
  intro p hp
  rcases List.mem_map.mp hp with ⟨b, _, rfl⟩
  exact bandEnergy_nonneg spec b.2.1 b.2.2 h

/-- Raw band energies coming out of either spectral path are
nonnegative under nonnegative magnitudes. -/
lemma rawBandEnergies_nonneg (env : AnalysisEnv) (audio : PyAudio)
    (es : List (String × ℚ)) (hmag : EnvMagsNonneg env)
    (hr : rawBandEnergies env audio = some es) : ∀ p ∈ es, 0 ≤ p.2 := by
  unfold rawBandEnergies at hr
  split at hr
  · cases hs : env.librosaSpectrum with
    | ok s =>
      rw [hs] at hr
      cases hr
      exact bandEnergies_nonneg s (hmag.1 s hs)
    | error e => rw [hs] at hr; cases hr
  · cases hs : env.fftPairs with
    | ok s =>
      rw [hs] at hr
      cases hr
      refine bandEnergies_nonneg _ ?_
      intro p hp
      exact hmag.2 s hs p (List.mem_of_mem_filter hp)
    | error e => rw [hs] at hr; cases hr

/-- Normalization makes the ratios sum to exactly 1 when the total is
positive. -/
lemma normalizeBalance_sum_one (fb : List (String × ℚ))
    (h : 0 < sumVals fb) : sumVals (normalizeBalance fb) = 1 := by
  unfold normalizeBalance
  rw [if_pos h, sumVals_map_div]
  exact div_self (ne_of_gt h)

/-- With a zero total and nonnegative values, normalization leaves every
ratio at zero. -/
lemma normalizeBalance_all_zero (fb : List (String × ℚ))
    (hnn : ∀ p ∈ fb, 0 ≤ p.2) (h : sumVals fb = 0) :
    ∀ p ∈ normalizeBalance fb, p.2 = 0 := by
  unfold normalizeBalance
  rw [if_neg (by rw [h]; exact lt_irrefl 0)]
  intro p hp
  exact sum_zero_of_nonneg (fb.map Prod.snd)
    (fun y hy => by
      rcases List.mem_map.mp hy with ⟨q, hq, rfl⟩
      exact hnn q hq) h p.2 (List.mem_map_of_mem Prod.snd hp)

/-- Claim C7: in the record extract returns (outside the catastrophic
outer fallback), the frequency-balance ratios sum to exactly 1 whenever
the total raw band energy is positive, are all zero when that total is
zero, and the exception fallback constants also sum to 1. -/
theorem extract_balance_sums_to_one (env : AnalysisEnv) (audio : PyAudio)
    (r : AudioFeatures) (es : List (String × ℚ))
    (hmag : EnvMagsNonneg env)
    (hok : extract_features env audio = .ok r)
    (houter : env.outerException = false)
    (hsamp : (samplesOf audio).isEmpty = false) :
    (rawBandEnergies env audio = some es →
      (0 < sumVals es → sumVals r.frequency_balance = 1) ∧
      (sumVals es = 0 → ∀ p ∈ r.frequency_balance, p.2 = 0)) ∧
    (rawBandEnergies env audio = none →
      sumVals r.frequency_balance = 1) := by
  have hfb : r.frequency_balance = analyze_frequency_balance env audio := by
    by_cases h0 : pyLen audio = 0
    · unfold extract_features at hok
      rw [if_pos h0] at hok
      exact absurd hok (by simp)
    · unfold extract_features at hok
      rw [if_neg h0, houter, if_neg (by simp), hsamp, if_neg (by simp)] at hok
      exact (Except.ok.inj hok) ▸ rfl
  constructor
  · intro hsome
    rw [hfb]
    unfold analyze_frequency_balance
    rw [hsome]
    exact ⟨normalizeBalance_sum_one es,
      normalizeBalance_all_zero es
        (rawBandEnergies_nonneg env audio es hmag hsome)⟩
  · intro hnone
    rw [hfb]
    unfold analyze_frequency_balance
    rw [hnone]
    norm_num [sumVals, fallbackBalance5]

/-- Witness for C7 at the concrete environment and buffer above. -/
theorem extract_balance_sums_to_one_witness :
    (rawBandEnergies env7 audio7 = some es7 →
      (0 < sumVals es7 → sumVals r7.frequency_balance = 1) ∧
      (sumVals es7 = 0 → ∀ p ∈ r7.frequency_balance, p.2 = 0)) ∧
    (rawBandEnergies env7 audio7 = none →
      sumVals r7.frequency_balance = 1) := by
  have hmag : EnvMagsNonneg env7 := by
    constructor
    · intro s hs
      injection hs with h
      subst h
      intro p hp
      cases hp
    · intro s hs
      injection hs with h
      subst h
      intro p hp
      fin_cases hp <;> norm_num
  have hok : extract_features env7 audio7 = .ok r7 := by
    norm_num [extract_features, env7, audio7, r7, samplesOf, pyLen, meanSq,
      listMax, listMin, analyze_frequency_balance, rawBandEnergies,
      bandEnergies, bandEnergy, freqBands, normalizeBalance, sumVals,
      find_peak_frequency, argmaxSnd, calculate_stereo_width]
  exact extract_balance_sums_to_one env7 audio7 r7 es7 hmag hok rfl rfl

/-! ## Claim C1: extract never raises; safe defaults on failure -/

/-- Counterexample to C1 as stated: an internal analysis step fails
(the FFT raises, so the raw band energies are absent and the balance
and peak fall back), yet the returned record is not the documented
safe-default record - its computed fields survive. -/
theorem extract_partial_failure_not_full_default :
    extract_features env1 (.mono [1, -1]) = .ok r1 ∧
    rawBandEnergies env1 (.mono [1, -1]) = none ∧
    r1 ≠ safeDefaultFeatures := by
  refine ⟨?_, ?_, ?_⟩
  · norm_num [extract_features, env1, r1, samplesOf, pyLen, meanSq,
      listMax, listMin, analyze_frequency_balance, rawBandEnergies,
      fallbackBalance5, find_peak_frequency, calculate_stereo_width]
  · norm_num [rawBandEnergies, env1, pyLen]
  · simp only [r1, safeDefaultFeatures, ne_eq, AudioFeatures.mk.injEq]
    norm_num

/-- Claim C1 (amended): for every non-empty buffer extract returns a
record rather than raising, and whenever the analysis as a whole fails
it returns the documented safe-default record; an individual
sub-analysis failure substitutes only the documented default fields of
that step. -/
theorem extract_never_raises (env : AnalysisEnv) (audio : PyAudio)
    (h : pyLen audio ≠ 0) :
    (∃ r, extract_features env audio = .ok r) ∧
    (env.outerException = true →
      extract_features env audio = .ok safeDefaultFeatures) := by
  unfold extract_features
  rw [if_neg h]
  by_cases ho : env.outerException = true
  · rw [if_pos ho]
    exact ⟨⟨_, rfl⟩, fun _ => rfl⟩
  · rw [if_neg ho]
    refine ⟨?_, fun hcontra => absurd hcontra ho⟩
    by_cases he : (samplesOf audio).isEmpty = true
    · rw [if_pos he]
      exact ⟨_, rfl⟩
    · rw [if_neg he]
      exact ⟨_, rfl⟩

/-- Witness for the amended C1 on a one-sample buffer whose analysis
body fails: extract still returns a record, namely the safe default. -/
theorem extract_never_raises_witness :
    (∃ r, extract_features envC1 (.mono [1]) = .ok r) ∧
    (envC1.outerException = true →
      extract_features envC1 (.mono [1]) = .ok safeDefaultFeatures) :=
  extract_never_raises envC1 (.mono [1]) (by decide)

/-! ## Claim C6: stereo width of a silent stereo buffer -/

/-- Claim C6 (code bug at the NaN case): on a silent stereo buffer the
effective width calculation propagates the NaN (none) into the record
instead of the documented 0.5; the shadowed first definition of the
same method would have returned 0.5. -/
theorem stereo_width_nan_propagates :
    (extract_features nanEnv silentStereo).map (fun r => r.stereo_width)
      = .ok none ∧
    calculate_stereo_width_v1 nanEnv = some (1/2) ∧
    (none : Option ℚ) ≠ some (1/2) := by
  refine ⟨?_, rfl, by simp⟩
  norm_num [extract_features, nanEnv, silentStereo, samplesOf, pyLen,
    Except.map, calculate_stereo_width]
